import Mathlib

/-!
Verification of the form-validation engine in `src/Form_validation/script.js`
(class `FormValidator`).

Strings are embedded as `List Char` (JavaScript strings; all characters that
occur here are in the basic multilingual plane, so code points and UTF-16
units agree).  A validator is a total function returning `none` for a valid
value or `some msg` with the human-readable error message, exactly as the
JavaScript functions return `null` or a string.  The DOM reads performed by
the original validators (live field values, radio/checkbox groups, the file
input) are supplied through an explicit environment `JsEnv`; the mutable
`this.errors` map is an explicit `ErrorMap` value.
-/

/-- The character class of JavaScript `\s` (and of `String.prototype.trim`):
space, tab, line feed, vertical tab, form feed, carriage return, NBSP,
Ogham space mark, the U+2000..U+200A spaces, line/paragraph separator,
narrow NBSP, medium mathematical space, ideographic space and the BOM. -/
def jsWhitespace (c : Char) : Bool :=
  let n := c.toNat
  n == 32 || n == 9 || n == 10 || n == 11 || n == 12 || n == 13 ||
  n == 160 || n == 0x1680 || (0x2000 ≤ n && n ≤ 0x200A) ||
  n == 0x2028 || n == 0x2029 || n == 0x202F || n == 0x205F ||
  n == 0x3000 || n == 0xFEFF

/-- JavaScript `\d`, i.e. the ASCII digits `0`..`9`. -/
def isDigitChar (c : Char) : Bool :=
  48 ≤ c.toNat && c.toNat ≤ 57

/-- Numeric value of an ASCII digit character. -/
def digitVal (c : Char) : Nat := c.toNat - 48

/-- `String.prototype.trim`: drop JavaScript whitespace from both ends. -/
def jsTrim (s : List Char) : List Char :=
  ((s.dropWhile jsWhitespace).reverse.dropWhile jsWhitespace).reverse

/-- Value of a string of ASCII digits read in base 10.  This models
`parseInt(t)` for the arguments it receives below, which the surrounding
guards have already checked to consist only of digits. -/
def digitsToNat (t : List Char) : Nat :=
  t.foldl (fun a c => 10 * a + digitVal c) 0

-- Error messages of the source, in source order.

def cedulaReqMsg : List Char := "La cédula es requerida".toList

def cedulaDigitsMsg : List Char := "La cédula debe tener exactamente 10 dígitos".toList

def cedulaProvinceMsg : List Char := "Código de provincia inválido".toList

def cedulaInvalidMsg : List Char := "Número de cédula inválido".toList

/-- The coefficient table of `validateCedula`. -/
def cedulaCoefficients : List Nat := [2, 1, 2, 1, 2, 1, 2, 1, 2]

/-- The source's `province` local: `parseInt(cedula.substring(0, 2))`,
evaluated on the two leading characters, which the surrounding regular
expression has already checked to be digits. -/
def cedProvince (t : List Char) : Nat := digitsToNat (t.take 2)

/-- The source's `sum` loop: for `i` in `0..8` multiply `digits[i]` by
`coefficients[i]`, subtract nine from a product above nine, and accumulate. -/
def cedSum (t : List Char) : Nat :=
  (List.range 9).foldl (fun acc i => acc +
    (if 9 < (t.map digitVal).getD i 0 * cedulaCoefficients.getD i 0
     then (t.map digitVal).getD i 0 * cedulaCoefficients.getD i 0 - 9
     else (t.map digitVal).getD i 0 * cedulaCoefficients.getD i 0)) 0

/-- The source's `verifierDigit`: `sum % 10 === 0 ? 0 : 10 - (sum % 10)`. -/
def cedVerifier (t : List Char) : Nat :=
  if cedSum t % 10 = 0 then 0 else 10 - cedSum t % 10

/-- `validateCedula(value)`: trims the value, requires exactly ten ASCII
digits (`/^\d{10}$/`), requires the two leading digits (read by
`parseInt(cedula.substring(0, 2))`) to denote a province in `[1, 24]`, and
finally compares the check digit computed from the first nine digits with
the tenth digit. -/
def validateCedula (value : List Char) : Option (List Char) :=
  if (jsTrim value).isEmpty then some cedulaReqMsg
  else if ¬((jsTrim value).length = 10 ∧ (jsTrim value).all isDigitChar)
    then some cedulaDigitsMsg
  else if cedProvince (jsTrim value) < 1 ∨ 24 < cedProvince (jsTrim value)
    then some cedulaProvinceMsg
  else if cedVerifier (jsTrim value) ≠ ((jsTrim value).map digitVal).getD 9 0
    then some cedulaInvalidMsg
  else none

/-- The acceptance condition of claim C1, stated in the claim's own terms:
the string consists of digits only (its length being fixed to ten by the
claim's hypothesis), its first two digits form a province code in `[1, 24]`,
and the verifier computed from the leading nine digits with coefficients
`[2,1,2,1,2,1,2,1,2]` (products above nine reduced by nine, summed,
`0` if the sum is a multiple of ten and otherwise ten minus the remainder)
equals the tenth digit. -/
def claimProvince (s : List Char) : Nat :=
  10 * (s.map digitVal).getD 0 0 + (s.map digitVal).getD 1 0

def claimChecksum (s : List Char) : Nat :=
  ((List.range 9).map (fun i =>
    let p := (s.map digitVal).getD i 0 * cedulaCoefficients.getD i 0
    if 9 < p then p - 9 else p)).sum

def claimVerifier (s : List Char) : Nat :=
  if claimChecksum s % 10 = 0 then 0 else 10 - claimChecksum s % 10

def cedulaClaimAccepts (s : List Char) : Prop :=
  s.all isDigitChar = true ∧
  1 ≤ claimProvince s ∧ claimProvince s ≤ 24 ∧
  claimVerifier s = (s.map digitVal).getD 9 0

instance (s : List Char) : Decidable (cedulaClaimAccepts s) := by
  unfold cedulaClaimAccepts; infer_instance

-- Sanity checks of the embedding on concrete inputs.

example : validateCedula ("1710034065".toList) = none := by decide

example : validateCedula ("1712345678".toList) = some cedulaInvalidMsg := by decide

example : validateCedula ("2512345678".toList) = some cedulaProvinceMsg := by decide

example : validateCedula ("abc".toList) = some cedulaDigitsMsg := by decide

example : validateCedula ("          ".toList) = some cedulaReqMsg := by decide

-- Helper lemmas about `jsTrim`.

lemma dropWhile_of_all_false {p : Char → Bool} {l : List Char}
    (h : ∀ c ∈ l, p c = false) : l.dropWhile p = l := by
  cases l with
  | nil => rfl
  | cons c t => simp [List.dropWhile_cons, h c (List.mem_cons_self c t)]

lemma jsTrim_eq_self {s : List Char} (h : ∀ c ∈ s, jsWhitespace c = false) :
    jsTrim s = s := by
  unfold jsTrim
  rw [dropWhile_of_all_false h, dropWhile_of_all_false (by
    intro c hc
    exact h c (List.mem_reverse.mp hc)), List.reverse_reverse]

lemma jsTrim_length_le (s : List Char) : (jsTrim s).length ≤ s.length := by
  unfold jsTrim
  calc ((s.dropWhile jsWhitespace).reverse.dropWhile jsWhitespace).reverse.length
      = ((s.dropWhile jsWhitespace).reverse.dropWhile jsWhitespace).length := by
        rw [List.length_reverse]
    _ ≤ (s.dropWhile jsWhitespace).reverse.length :=
        (List.dropWhile_suffix jsWhitespace).length_le
    _ = (s.dropWhile jsWhitespace).length := by rw [List.length_reverse]
    _ ≤ s.length := (List.dropWhile_suffix jsWhitespace).length_le

lemma dropWhile_eq_self_of_length {p : Char → Bool} {l : List Char}
    (h : (l.dropWhile p).length = l.length) : l.dropWhile p = l :=
  (List.dropWhile_suffix p).sublist.eq_of_length h

lemma jsTrim_eq_self_of_length {s : List Char}
    (h : (jsTrim s).length = s.length) : jsTrim s = s := by
  have h1 : ((s.dropWhile jsWhitespace).reverse.dropWhile jsWhitespace).length
      ≤ (s.dropWhile jsWhitespace).reverse.length :=
    (List.dropWhile_suffix jsWhitespace).length_le
  have h2 : (s.dropWhile jsWhitespace).length ≤ s.length :=
    (List.dropWhile_suffix jsWhitespace).length_le
  have hlen : (jsTrim s).length =
      ((s.dropWhile jsWhitespace).reverse.dropWhile jsWhitespace).length := by
    unfold jsTrim; rw [List.length_reverse]
  rw [List.length_reverse] at h1
  have hdEq : (s.dropWhile jsWhitespace).length = s.length := by omega
  have hd : s.dropWhile jsWhitespace = s := dropWhile_eq_self_of_length hdEq
  have h1' : ((s.dropWhile jsWhitespace).reverse.dropWhile jsWhitespace).length
      = (s.dropWhile jsWhitespace).reverse.length := by
    rw [List.length_reverse]; omega
  have hd2 : (s.dropWhile jsWhitespace).reverse.dropWhile jsWhitespace
      = (s.dropWhile jsWhitespace).reverse := dropWhile_eq_self_of_length h1'
  unfold jsTrim
  rw [hd2, List.reverse_reverse, hd]

lemma digit_not_ws {c : Char} (h : isDigitChar c = true) :
    jsWhitespace c = false := by
  simp only [isDigitChar, Bool.and_eq_true, decide_eq_true_eq] at h
  simp only [jsWhitespace, Bool.or_eq_false_iff, beq_eq_false_iff_ne, ne_eq,
    Bool.and_eq_false_iff, decide_eq_false_iff_not]
  omega

lemma foldl_add_eq_sum_map (f : Nat → Nat) :
    ∀ (l : List Nat) (a : Nat),
      l.foldl (fun acc i => acc + f i) a = a + (l.map f).sum := by
  intro l
  induction l with
  | nil => intro a; simp
  | cons x t ih => intro a; simp [List.foldl_cons, ih, Nat.add_assoc]

lemma cedSum_eq_map_sum (t : List Char) :
    cedSum t = ((List.range 9).map (fun i =>
      let p := (t.map digitVal).getD i 0 * cedulaCoefficients.getD i 0
      if 9 < p then p - 9 else p)).sum := by
  unfold cedSum
  rw [foldl_add_eq_sum_map]
  rw [Nat.zero_add]

lemma claimChecksum_eq (s : List Char) : claimChecksum s = cedSum s :=
  (cedSum_eq_map_sum s).symm

lemma claimVerifier_eq (s : List Char) : claimVerifier s = cedVerifier s := by
  unfold claimVerifier cedVerifier
  rw [claimChecksum_eq]

/-- C1: for every 10-character input, `validateCedula` accepts iff the input
is ten digits whose first two form a province code in `[1, 24]` and whose
checksum verifier equals the tenth digit; inputs starting `00` or `25` are
always rejected. -/
theorem claim1_cedula (s : List Char) (hlen : s.length = 10) :
    (validateCedula s = none ↔ cedulaClaimAccepts s) ∧
    ((s.take 2 = ['0', '0'] ∨ s.take 2 = ['2', '5']) →
      validateCedula s ≠ none) := by
  cases s with
  | nil => simp at hlen
  | cons c0 t =>
  cases t with
  | nil => simp at hlen
  | cons c1 rest =>
  have main : validateCedula (c0 :: c1 :: rest) = none ↔
      cedulaClaimAccepts (c0 :: c1 :: rest) := by
    cases hall : (c0 :: c1 :: rest).all isDigitChar with
    | false =>
      apply iff_of_false
      · intro hnone
        have hguard : ¬(((jsTrim (c0 :: c1 :: rest)).length = 10) ∧
            ((jsTrim (c0 :: c1 :: rest)).all isDigitChar = true)) := by
          rintro ⟨hl, ha⟩
          have hts : jsTrim (c0 :: c1 :: rest) = c0 :: c1 :: rest :=
            jsTrim_eq_self_of_length (by rw [hl, hlen])
          rw [hts, hall] at ha
          exact Bool.noConfusion ha
        unfold validateCedula at hnone
        split_ifs at hnone
      · rintro ⟨h1, -⟩
        rw [hall] at h1
        exact Bool.noConfusion h1
    | true =>
      have hts : jsTrim (c0 :: c1 :: rest) = c0 :: c1 :: rest :=
        jsTrim_eq_self (fun c hc =>
          digit_not_ws (List.all_eq_true.mp hall c hc))
      have hprov : cedProvince (c0 :: c1 :: rest) =
          10 * digitVal c0 + digitVal c1 := by
        simp [cedProvince, digitsToNat]
      have hprov2 : claimProvince (c0 :: c1 :: rest) =
          10 * digitVal c0 + digitVal c1 := by
        simp [claimProvince]
      unfold validateCedula cedulaClaimAccepts
      rw [hts]
      rw [if_neg (by simp : ¬((c0 :: c1 :: rest).isEmpty = true))]
      rw [if_neg (not_not_intro ⟨hlen, hall⟩)]
      rw [claimVerifier_eq, hprov, hprov2]
      simp only [hall, true_and]
      constructor
      · intro h
        split_ifs at h with h3 h4
        push_neg at h3
        refine ⟨by omega, by omega, not_not.mp (by simpa using h4)⟩
      · rintro ⟨hp1, hp2, hv⟩
        rw [if_neg (by omega), if_neg (not_not_intro hv)]
  refine ⟨main, ?_⟩
  rintro (h00 | h25) hnone
  · obtain ⟨-, hp1, -, -⟩ := main.mp hnone
    simp only [List.take, List.cons.injEq] at h00
    obtain ⟨hc0, hc1, -⟩ := h00
    subst hc0; subst hc1
    rw [show claimProvince ('0' :: '0' :: rest) = 0 by
      simp [claimProvince]; decide] at hp1
    omega
  · obtain ⟨-, -, hp2, -⟩ := main.mp hnone
    simp only [List.take, List.cons.injEq] at h25
    obtain ⟨hc0, hc1, -⟩ := h25
    subst hc0; subst hc1
    rw [show claimProvince ('2' :: '5' :: rest) = 25 by
      simp [claimProvince]; decide] at hp2
    omega

-- ===== validateFullName =====

def fullNameReqMsg : List Char := "El nombre completo es requerido".toList

def fullNameMinMsg : List Char := "El nombre debe tener al menos 2 caracteres".toList

def fullNameLettersMsg : List Char := "El nombre solo puede contener letras y espacios".toList

def fullNameTokensMsg : List Char := "Debe ingresar nombre y apellido".toList

/-- The accented letters admitted by the full-name pattern
`/^[a-zA-ZáéíóúÁÉÍÓÚñÑ\s]+$/`. -/
def accentedNameChars : List Char :=
  ['á', 'é', 'í', 'ó', 'ú', 'Á', 'É', 'Í', 'Ó', 'Ú', 'ñ', 'Ñ']

/-- Membership in the character class of the full-name pattern: ASCII
letters, the listed accented letters, and JavaScript `\s` whitespace. -/
def nameChar (c : Char) : Bool :=
  (97 ≤ c.toNat && c.toNat ≤ 122) || (65 ≤ c.toNat && c.toNat ≤ 90) ||
  accentedNameChars.contains c || jsWhitespace c

/-- `value.trim().split(' ').length`: splitting a string at every single
space character yields one more piece than the number of space characters
(empty pieces included, exactly as `String.prototype.split` produces them;
for the empty string, `''.split(' ')` is `['']`, of length `0 + 1`). -/
def spaceSplitLength (t : List Char) : Nat := t.count ' ' + 1

/-- `validateFullName(value)`: requires a non-empty trimmed value, trimmed
length at least 2, the whole (untrimmed) string matching
`/^[a-zA-ZáéíóúÁÉÍÓÚñÑ\s]+$/`, and `value.trim().split(' ').length >= 2`. -/
def validateFullName (value : List Char) : Option (List Char) :=
  if (jsTrim value).isEmpty then some fullNameReqMsg
  else if (jsTrim value).length < 2 then some fullNameMinMsg
  else if ¬(value ≠ [] ∧ value.all nameChar) then some fullNameLettersMsg
  else if spaceSplitLength (jsTrim value) < 2 then some fullNameTokensMsg
  else none

/-- The number of maximal whitespace-separated tokens of a string — the
reading of "whitespace-separated tokens" used by claim C7's fourth check. -/
def wsTokens (t : List Char) : Nat :=
  ((t.splitOnP jsWhitespace).filter (fun piece => ¬piece.isEmpty)).length

example : validateFullName ("Juan Pérez".toList) = none := by decide

example : validateFullName ("  ".toList) = some fullNameReqMsg := by decide

example : validateFullName (" a ".toList) = some fullNameMinMsg := by decide

example : validateFullName ("Juan3 Po".toList) = some fullNameLettersMsg := by decide

example : validateFullName ("Juan".toList) = some fullNameTokensMsg := by decide

example : wsTokens ("Juan Pérez".toList) = 2 := by decide

-- ===== validateEmail =====

def emailReqMsg : List Char := "El email es requerido".toList

def emailFormatMsg : List Char := "Ingrese un email válido".toList

/-- The test `/^[^\s@]+@[^\s@]+\.[^\s@]+$/.test(value)`: the string must
split at its first `@` into a non-empty local part, and a domain that is
free of `@` and contains a `.` that is neither its first nor its last
character; no whitespace anywhere (both parts exclude `\s` and `@`). -/
def emailOk (s : List Char) : Bool :=
  match s.dropWhile (fun c => !(c == '@')) with
  | [] => false
  | _ :: domain =>
    !(s.takeWhile (fun c => !(c == '@'))).isEmpty
    && s.all (fun c => !jsWhitespace c)
    && domain.all (fun c => !(c == '@'))
    && ((domain.drop 1).dropLast.contains '.')

/-- `validateEmail(value)`. -/
def validateEmail (value : List Char) : Option (List Char) :=
  if (jsTrim value).isEmpty then some emailReqMsg
  else if ¬emailOk value then some emailFormatMsg
  else none

example : validateEmail ("ana@mail.com".toList) = none := by decide

example : validateEmail ("ana@mail".toList) = some emailFormatMsg := by decide

example : validateEmail ("a na@mail.com".toList) = some emailFormatMsg := by decide

example : validateEmail ("".toList) = some emailReqMsg := by decide

-- ===== validatePhone =====

def phoneReqMsg : List Char := "El teléfono es requerido".toList

def phoneFormatMsg : List Char := "Formato de teléfono ecuatoriano inválido".toList

/-- `value.replace(/[\s\-\(\)]/g, '')`. -/
def phoneClean (s : List Char) : List Char :=
  s.filter (fun c => !(jsWhitespace c || c == '-' || c == '(' || c == ')'))

/-- Nine digits, the first in `2`..`9`: the `[2-9]\d{8}` core. -/
def phoneLocalOk (u : List Char) : Bool :=
  match u with
  | [] => false
  | c :: t => (50 ≤ c.toNat && c.toNat ≤ 57) && t.length = 8 && t.all isDigitChar

/-- The anchored test `/^(\+593|593|0)?[2-9]\d{8}$/` on the cleaned value:
the optional prefix alternation becomes a disjunction. -/
def phoneOk (t : List Char) : Bool :=
  ("+593".toList.isPrefixOf t && phoneLocalOk (t.drop 4))
  || ("593".toList.isPrefixOf t && phoneLocalOk (t.drop 3))
  || ("0".toList.isPrefixOf t && phoneLocalOk (t.drop 1))
  || phoneLocalOk t

/-- `validatePhone(value)`. -/
def validatePhone (value : List Char) : Option (List Char) :=
  if (jsTrim value).isEmpty then some phoneReqMsg
  else if ¬phoneOk (phoneClean value) then some phoneFormatMsg
  else none

example : validatePhone ("098 765-4321".toList) = none := by decide

example : validatePhone ("+593 98 765 4321".toList) = none := by decide

example : validatePhone ("123456789".toList) = some phoneFormatMsg := by decide

-- ===== validatePassword =====

def passwordReqMsg : List Char := "La contraseña es requerida".toList

def passwordLenMsg : List Char := "La contraseña debe tener al menos 8 caracteres".toList

def passwordLowerMsg : List Char := "La contraseña debe contener al menos una letra minúscula".toList

def passwordUpperMsg : List Char := "La contraseña debe contener al menos una letra mayúscula".toList

def passwordDigitMsg : List Char := "La contraseña debe contener al menos un número".toList

def passwordSpecialMsg : List Char := "La contraseña debe contener al menos un símbolo especial".toList

/-- The special characters of `/[!@#$%^&*()_+\-=\[\]{};':"\\|,.<>\/?]/`
(the braces are written with escapes). -/
def passwordSpecialChars : List Char :=
  ['!', '@', '#', '$', '%', '^', '&', '*', '(', ')', '_', '+', '-', '=',
   '[', ']', '\x7b', '\x7d', ';', '\'', ':', '\"', '\\', '|', ',', '.',
   '<', '>', '/', '?']

/-- `validatePassword(value)`: non-empty, length at least 8, then one
lowercase, one uppercase, one digit and one special character, in that
order. -/
def validatePassword (value : List Char) : Option (List Char) :=
  if value = [] then some passwordReqMsg
  else if value.length < 8 then some passwordLenMsg
  else if ¬value.any (fun c => 97 ≤ c.toNat && c.toNat ≤ 122) then some passwordLowerMsg
  else if ¬value.any (fun c => 65 ≤ c.toNat && c.toNat ≤ 90) then some passwordUpperMsg
  else if ¬value.any isDigitChar then some passwordDigitMsg
  else if ¬value.any (fun c => passwordSpecialChars.contains c) then some passwordSpecialMsg
  else none

example : validatePassword ("Abcdef1!".toList) = none := by decide

example : validatePassword ("Abcdef12".toList) = some passwordSpecialMsg := by decide

-- ===== validateWebsite =====

def websiteFormatMsg : List Char := "Ingrese una URL válida (ej: https://ejemplo.com)".toList

/-- Word characters, for the `\b` boundary inside the URL pattern. -/
def isWordChar (c : Char) : Bool :=
  c.isAlpha || isDigitChar c || c == '_'

/-- The class `[-a-zA-Z0-9@:%._\+~#=]` of the URL pattern's host segment. -/
def urlSetA (c : Char) : Bool :=
  c == '-' || c.isAlpha || isDigitChar c || c == '@' || c == ':' || c == '%' ||
  c == '.' || c == '_' || c == '+' || c == '~' || c == '#' || c == '='

/-- The class `[a-zA-Z0-9()]` of the URL pattern's TLD segment. -/
def urlSetB (c : Char) : Bool :=
  c.isAlpha || isDigitChar c || c == '(' || c == ')'

/-- The class `[-a-zA-Z0-9()@:%_\+.~#?&//=]` of the URL pattern's trailing
path segment. -/
def urlSetC (c : Char) : Bool :=
  c == '-' || c.isAlpha || isDigitChar c || c == '(' || c == ')' || c == '@' ||
  c == ':' || c == '%' || c == '_' || c == '+' || c == '.' || c == '~' ||
  c == '#' || c == '?' || c == '&' || c == '/' || c == '='

/-- The part `[-a-zA-Z0-9@:%._\+~#=]{1,256}\.[a-zA-Z0-9()]{1,6}\b([-a-zA-Z0-9()@:%_\+.~#?&//=]*)$`
of the URL pattern: an anchored backtracking match exists iff some split of
the remaining input into `a ++ '.' ++ b ++ c` satisfies the three class and
length constraints together with a word boundary after `b` (`\b` holds
between the last character of `b` and what follows iff exactly one side is
a word character; the end of input counts as a non-word position). -/
def urlTail (t : List Char) : Bool :=
  (List.range t.length).any (fun i =>
    decide (1 ≤ i) && decide (i ≤ 256) && (t.take i).all urlSetA &&
    (t.getD i ' ' == '.') &&
    (List.range 6).any (fun j0 =>
      let j := j0 + 1
      let restAfterDot := t.drop (i + 1)
      let b := restAfterDot.take j
      let c := restAfterDot.drop j
      decide (b.length = j) && b.all urlSetB &&
      (isWordChar (b.getLastD ' ') !=
        (match c.head? with
         | some ch => isWordChar ch
         | none => false)) &&
      c.all urlSetC))

/-- `(www\.)?` followed by `urlTail`: the optional group becomes a
disjunction of the two backtracking alternatives. -/
def wwwTail (t : List Char) : Bool :=
  (if "www.".toList.isPrefixOf t then urlTail (t.drop 4) else false) || urlTail t

/-- The full anchored test of
`/^https?:\/\/(www\.)?[-a-zA-Z0-9@:%._\+~#=]{1,256}\.[a-zA-Z0-9()]{1,6}\b([-a-zA-Z0-9()@:%_\+.~#?&//=]*)$/`. -/
def websiteOk (s : List Char) : Bool :=
  if "https://".toList.isPrefixOf s then wwwTail (s.drop 8)
  else if "http://".toList.isPrefixOf s then wwwTail (s.drop 7)
  else false

/-- `validateWebsite(value)`: an empty (after trim) value passes — the
field is optional; otherwise the URL pattern must match. -/
def validateWebsite (value : List Char) : Option (List Char) :=
  if (jsTrim value).isEmpty then none
  else if ¬websiteOk value then some websiteFormatMsg
  else none

example : validateWebsite ("".toList) = none := by decide

example : validateWebsite ("https://ejemplo.com".toList) = none := by decide

example : validateWebsite ("https://www.ejemplo.com/ruta?x=1".toList) = none := by decide

example : validateWebsite ("ejemplo.com".toList) = some websiteFormatMsg := by decide

example : validateWebsite ("http://x".toList) = some websiteFormatMsg := by decide

-- ===== validateSalary =====

/-- The result of JavaScript `parseFloat`: `NaN`, a signed infinity from an
`Infinity` literal, or a finite decimal value.  `val num scale` denotes the
exact rational `num / 10 ^ scale`; decimal literals are represented
exactly (the rounding of the literal to an IEEE double is not modelled —
it is irrelevant to the sign/threshold comparisons performed here except
for literals whose significand straddles a bound closer than one part in
`2 ^ 52`). -/
inductive JsNum where
  | nan : JsNum
  | inf (neg : Bool) : JsNum
  | val (num : Int) (scale : Nat) : JsNum
deriving DecidableEq

def JsNum.isNaN : JsNum → Bool
  | JsNum.nan => true
  | _ => false

/-- `x < c` (an integer bound) on a `parseFloat` result: false for `NaN`;
`num / 10 ^ scale < c ↔ num < c * 10 ^ scale`. -/
def jsLtNum (x : JsNum) (c : Int) : Bool :=
  match x with
  | JsNum.nan => false
  | JsNum.inf neg => neg
  | JsNum.val num scale => decide (num < c * (10 : Int) ^ scale)

/-- `x > c` (an integer bound) on a `parseFloat` result: false for `NaN`. -/
def jsGtNum (x : JsNum) (c : Int) : Bool :=
  match x with
  | JsNum.nan => false
  | JsNum.inf neg => !neg
  | JsNum.val num scale => decide (c * (10 : Int) ^ scale < num)

/-- The optional exponent digits after `e`/`E`: an optional sign followed
by digits.  If no digit follows, the exponent part fails to match and
`parseFloat` backtracks to the mantissa alone, i.e. the exponent is `0`. -/
def expDigits (r : List Char) : Int :=
  match r with
  | '+' :: r2 =>
    if (r2.takeWhile isDigitChar).isEmpty then 0
    else (digitsToNat (r2.takeWhile isDigitChar) : Int)
  | '-' :: r2 =>
    if (r2.takeWhile isDigitChar).isEmpty then 0
    else -(digitsToNat (r2.takeWhile isDigitChar) : Int)
  | r2 =>
    if (r2.takeWhile isDigitChar).isEmpty then 0
    else (digitsToNat (r2.takeWhile isDigitChar) : Int)

/-- The exponent of the longest-prefix match, `0` when absent. -/
def expOf (r : List Char) : Int :=
  match r with
  | 'e' :: r2 => expDigits r2
  | 'E' :: r2 => expDigits r2
  | _ => 0

/-- JavaScript `parseFloat(value)`: skip leading whitespace, read an
optional sign, accept an `Infinity` literal, otherwise read the longest
prefix `digits [. digits] [exponent]`; `NaN` when no digit is found.  The
unread remainder of the string is ignored (longest-prefix semantics).
The mantissa `ip.fp` with exponent `e` denotes
`(ip * 10 ^ |fp| + fp) / 10 ^ |fp| * 10 ^ e`, folded into `val`'s scaled
representation. -/
def jsParseFloat (s : List Char) : JsNum :=
  let t := s.dropWhile jsWhitespace
  let neg := match t with
    | '-' :: _ => true
    | _ => false
  let t2 := match t with
    | '+' :: r => r
    | '-' :: r => r
    | _ => t
  if "Infinity".toList.isPrefixOf t2 then JsNum.inf neg
  else
    let ip := t2.takeWhile isDigitChar
    let rest := t2.dropWhile isDigitChar
    let fp := match rest with
      | '.' :: r => r.takeWhile isDigitChar
      | _ => []
    let afterMantissa := match rest with
      | '.' :: r => r.dropWhile isDigitChar
      | _ => rest
    if ip.isEmpty && fp.isEmpty then JsNum.nan
    else
      let mantissa : Int :=
        (digitsToNat ip : Int) * (10 : Int) ^ fp.length + (digitsToNat fp : Int)
      let signed := if neg then -mantissa else mantissa
      let e := expOf afterMantissa
      if 0 ≤ e then JsNum.val (signed * (10 : Int) ^ e.toNat) fp.length
      else JsNum.val signed (fp.length + (-e).toNat)

def salaryReqMsg : List Char := "El salario es requerido".toList

def salaryNumMsg : List Char := "Ingrese un valor numérico válido".toList

def salaryNegMsg : List Char := "El salario no puede ser negativo".toList

def salaryHighMsg : List Char := "El salario parece ser demasiado alto".toList

/-- `validateSalary(value)`: non-empty, `parseFloat` must not give `NaN`,
the value must not be negative nor exceed 1,000,000. -/
def validateSalary (value : List Char) : Option (List Char) :=
  if value = [] then some salaryReqMsg
  else
    let salary := jsParseFloat value
    if salary.isNaN then some salaryNumMsg
    else if jsLtNum salary 0 then some salaryNegMsg
    else if jsGtNum salary 1000000 then some salaryHighMsg
    else none

example : jsParseFloat ("50000".toList) = JsNum.val 50000 0 := by decide

example : jsParseFloat ("-1".toList) = JsNum.val (-1) 0 := by decide

example : jsParseFloat ("abc".toList) = JsNum.nan := by decide

example : jsParseFloat (" 12.5e2x".toList) = JsNum.val 12500 1 := by decide

example : jsParseFloat ("1e".toList) = JsNum.val 1 0 := by decide

example : jsParseFloat (".5".toList) = JsNum.val 5 1 := by decide

example : jsParseFloat ("2.5e-1".toList) = JsNum.val 25 2 := by decide

example : jsParseFloat ("Infinity".toList) = JsNum.inf false := by decide

example : validateSalary ("50000".toList) = none := by decide

example : validateSalary ("-1".toList) = some salaryNegMsg := by decide

example : validateSalary ("abc".toList) = some salaryNumMsg := by decide

example : validateSalary ("1000001".toList) = some salaryHighMsg := by decide

example : validateSalary ("".toList) = some salaryReqMsg := by decide

example : validateSalary ("-Infinity".toList) = some salaryNegMsg := by decide

-- ===== validateSelect / validateTextarea =====

def selectReqMsg : List Char := "Debe seleccionar una opción".toList

/-- `validateSelect(value)`: `!value || value === ''` rejects exactly the
empty string. -/
def validateSelect (value : List Char) : Option (List Char) :=
  if value = [] then some selectReqMsg
  else none

def commentsLenMsg : List Char := "El comentario no debe superar los 500 caracteres".toList

/-- `validateTextarea(value)`: optional, but at most 500 characters. -/
def validateTextarea (value : List Char) : Option (List Char) :=
  if value ≠ [] ∧ 500 < value.length then some commentsLenMsg
  else none

-- ===== validateBirthDate =====

/-- Days since the epoch 1970-01-01 of the proleptic Gregorian date
`(y, m, d)`.  This is ECMAScript `MakeDay(y, m-1, d) `: linear in `d`, so a
day-of-month beyond the month's length rolls over into the following month
exactly as `Date.prototype.setFullYear` and the `Date` constructor do.
The formula is the standard civil-from-days inverse (Hinnant), flattened:
with `y' = y - 1` for January/February and `y' = y` otherwise, the day
count is `365 y' + ⌊y'/4⌋ - ⌊y'/100⌋ + ⌊y'/400⌋ + doy(m, d) - 719468`,
where `doy` uses the March-based month offset `(153 mp + 2) / 5`. -/
def daysFromCivil (y : Int) (m : Nat) (d : Nat) : Int :=
  (if m ≤ 2 then y - 1 else y) * 365
  + (if m ≤ 2 then y - 1 else y) / 4
  - (if m ≤ 2 then y - 1 else y) / 100
  + (if m ≤ 2 then y - 1 else y) / 400
  + (153 * ((m : Int) + (if m ≤ 2 then 9 else -3)) + 2) / 5
  + (d : Int) - 1 - 719468

example : daysFromCivil 1970 1 1 = 0 := by decide

example : daysFromCivil 2020 6 15 = 18428 := by decide

example : daysFromCivil 1969 12 31 = -1 := by decide

example : daysFromCivil 2000 2 29 = 11016 := by decide

-- A non-leap-year February 29 rolls over to March 1, as in ECMAScript.
example : daysFromCivil 2006 2 29 = daysFromCivil 2006 3 1 := by decide

/-- A calendar date as parsed from a `YYYY-MM-DD` string (the value format
of a date input).  The day may be up to 31 and is normalised by rollover
in `daysFromCivil`, as in ECMAScript `MakeDay`. -/
structure CalDate where
  year : Int
  month : Nat
  day : Nat
deriving DecidableEq

/-- Day count of a parsed date (its timestamp is this times 86400000, the
date string being interpreted at UTC midnight). -/
def daysOfDate (b : CalDate) : Int := daysFromCivil b.year b.month b.day

/-- `new Date(value)` for the strict `YYYY-MM-DD` date-input format: four
digits, hyphen, two digits (month `01`..`12`), hyphen, two digits (day
`01`..`31`).  Everything else is modelled as an invalid date (`none`);
this covers every value an `<input type="date">` produces, which is the
only shape the claims exercise — other formats accepted by a JavaScript
engine's extended parsing are out of scope. -/
def parseJsDate (s : List Char) : Option CalDate :=
  match s with
  | [y1, y2, y3, y4, h1, m1, m2, h2, d1, d2] =>
    if isDigitChar y1 && isDigitChar y2 && isDigitChar y3 && isDigitChar y4
        && (h1 == '-') && isDigitChar m1 && isDigitChar m2
        && (h2 == '-') && isDigitChar d1 && isDigitChar d2 then
      let year : Int := (digitsToNat [y1, y2, y3, y4] : Int)
      let mm := digitsToNat [m1, m2]
      let dd := digitsToNat [d1, d2]
      if 1 ≤ mm ∧ mm ≤ 12 ∧ 1 ≤ dd ∧ dd ≤ 31 then some ⟨year, mm, dd⟩
      else none
    else none
  | _ => none

example : parseJsDate ("2002-06-15".toList) = some ⟨2002, 6, 15⟩ := by decide

example : parseJsDate ("abc".toList) = none := by decide

example : parseJsDate ("2002-13-01".toList) = none := by decide

/-- The current instant as observed by `new Date()`: a calendar date plus
the time of day in milliseconds (below one day).  The runtime's time zone
is taken to be UTC, so `getFullYear`/`setFullYear` act on these calendar
fields, and the timestamp is `86400000 * days + tod`. -/
structure JsNow where
  year : Int
  month : Nat
  day : Nat
  tod : Nat
  tod_lt : tod < 86400000

/-- Timestamp of a parsed birth date (UTC midnight of its day). -/
def tsOfDate (b : CalDate) : Int := daysOfDate b * 86400000

/-- Timestamp of `today = new Date()`. -/
def nowTs (now : JsNow) : Int :=
  daysFromCivil now.year now.month now.day * 86400000 + now.tod

/-- Timestamp of `minDate`: `new Date()` with
`setFullYear(today.getFullYear() - 100)` — same month, day-of-month and
time of day, one hundred years earlier (a Feb 29 day rolls over). -/
def minTs (now : JsNow) : Int :=
  daysFromCivil (now.year - 100) now.month now.day * 86400000 + now.tod

/-- Timestamp of `maxDate`: `new Date()` with
`setFullYear(today.getFullYear() - 18)`. -/
def maxTs (now : JsNow) : Int :=
  daysFromCivil (now.year - 18) now.month now.day * 86400000 + now.tod

def birthReqMsg : List Char := "La fecha de nacimiento es requerida".toList

def birthFutureMsg : List Char := "La fecha de nacimiento no puede ser futura".toList

def birthOldMsg : List Char := "Fecha de nacimiento no válida".toList

def birthYoungMsg : List Char := "Debe ser mayor de 18 años".toList

/-- `validateBirthDate(value)`: requires a non-empty value, then compares
the parsed date's timestamp against today, the 100-years-ago boundary and
the 18-years-ago boundary, in that order.  When the value does not parse,
`new Date(value)` is an Invalid Date whose timestamp is `NaN`; every one
of the three comparisons is then false and the function returns `null`,
which the `none` branch reproduces. -/
def validateBirthDate (value : List Char) (now : JsNow) : Option (List Char) :=
  if value = [] then some birthReqMsg
  else
    match parseJsDate value with
    | none => none
    | some birthDate =>
      if nowTs now < tsOfDate birthDate then some birthFutureMsg
      else if tsOfDate birthDate < minTs now then some birthOldMsg
      else if maxTs now < tsOfDate birthDate then some birthYoungMsg
      else none

def exNow : JsNow := ⟨2020, 6, 15, 43200000, by decide⟩

example : validateBirthDate ("2002-06-15".toList) exNow = none := by decide

example : validateBirthDate ("2002-06-16".toList) exNow = some birthYoungMsg := by decide

example : validateBirthDate ("2021-01-01".toList) exNow = some birthFutureMsg := by decide

example : validateBirthDate ("1920-06-15".toList) exNow = some birthOldMsg := by decide

example : validateBirthDate ("1920-06-16".toList) exNow = none := by decide

example : validateBirthDate ("abc".toList) exNow = none := by decide

example : validateBirthDate ("".toList) exNow = some birthReqMsg := by decide

-- ===== DOM-backed validators and the environment =====

/-- A selected file, as read from `fileInput.files[0]`. -/
structure JsFile where
  mime : List Char
  size : Nat
deriving DecidableEq

/-- The document state the validators read: the live value of each named
field (`''` when the field is absent, as in `field ? field.value : ''`),
whether some radio button of a named group is checked, how many checkboxes
of a named group are checked, the file selected in a named file input, and
whether a named single checkbox is checked.  `now` is the clock read by
`new Date()`. -/
structure JsEnv where
  values : List Char → List Char
  radioChecked : List Char → Bool
  checkedCount : List Char → Nat
  fileOf : List Char → Option JsFile
  boxChecked : List Char → Bool
  now : JsNow

def confirmReqMsg : List Char := "Debe confirmar la contraseña".toList

def confirmMismatchMsg : List Char := "Las contraseñas no coinciden".toList

def passwordKey : List Char := "password".toList

/-- `validateConfirmPassword(value)`: reads the primary password field's
live value (`document.getElementById('password').value`) at validation
time and compares. -/
def validateConfirmPassword (env : JsEnv) (value : List Char) : Option (List Char) :=
  let password := env.values passwordKey
  if value = [] then some confirmReqMsg
  else if value ≠ password then some confirmMismatchMsg
  else none

/-- `validateRadioGroup(name)`: some button of the group must be checked. -/
def validateRadioGroup (env : JsEnv) (name : List Char) : Option (List Char) :=
  if ¬env.radioChecked name then some selectReqMsg
  else none

def checkboxMsgA : List Char := "Debe seleccionar al menos ".toList

def checkboxMsgB : List Char := " opciones".toList

/-- `validateCheckboxGroup(name, minRequired)`: at least `minRequired`
checkboxes of the group must be checked; the message interpolates the
minimum. -/
def validateCheckboxGroup (env : JsEnv) (name : List Char) (minRequired : Nat) :
    Option (List Char) :=
  if env.checkedCount name < minRequired then
    some (checkboxMsgA ++ (Nat.repr minRequired).toList ++ checkboxMsgB)
  else none

def fileReqMsg : List Char := "Debe seleccionar un archivo".toList

def filePdfMsg : List Char := "El archivo debe ser un PDF".toList

def fileSizeMsg : List Char := "El archivo no debe superar los 5MB".toList

def cvKey : List Char := "cv".toList

def pdfMime : List Char := "application/pdf".toList

/-- `validateFile(fieldName)`: a file must be selected; for the `cv` field
it must be a PDF; at most `5 * 1024 * 1024` bytes. -/
def validateFile (env : JsEnv) (fieldName : List Char) : Option (List Char) :=
  match env.fileOf fieldName with
  | none => some fileReqMsg
  | some file =>
    if fieldName = cvKey ∧ file.mime ≠ pdfMime then some filePdfMsg
    else if 5 * 1024 * 1024 < file.size then some fileSizeMsg
    else none

def termsReqMsg : List Char := "Debe aceptar los términos y condiciones".toList

/-- `validateCheckbox(fieldName)`: the checkbox must be checked. -/
def validateCheckbox (env : JsEnv) (fieldName : List Char) : Option (List Char) :=
  if ¬env.boxChecked fieldName then some termsReqMsg
  else none

-- ===== The rule registry =====

/-- A registered rule: the `required` flag and the `validate` closure.
(The source descriptors also carry `minLength`/`pattern` entries for two
fields; `validateField` never reads them, so they are omitted.  Every
descriptor has a `validate` function, so the `if (validator.validate)`
guard in `validateField` is always taken.) -/
structure RuleDescriptor where
  required : Bool
  validate : JsEnv → List Char → Option (List Char)

def fullNameKey : List Char := "fullName".toList

def emailKey : List Char := "email".toList

def phoneKey : List Char := "phone".toList

def birthDateKey : List Char := "birthDate".toList

def cedulaKey : List Char := "cedula".toList

def confirmPasswordKey : List Char := "confirmPassword".toList

def websiteKey : List Char := "website".toList

def salaryKey : List Char := "salary".toList

def countryKey : List Char := "country".toList

def genderKey : List Char := "gender".toList

def interestsKey : List Char := "interests".toList

def commentsKey : List Char := "comments".toList

def termsKey : List Char := "terms".toList

/-- The `this.validators` map built by `setupValidators()`, in insertion
order.  Group/file/checkbox validators ignore the passed value and read
the document (here: the environment), exactly as in the source. -/
def validators : List (List Char × RuleDescriptor) :=
  [(fullNameKey, ⟨true, fun _ v => validateFullName v⟩),
   (emailKey, ⟨true, fun _ v => validateEmail v⟩),
   (phoneKey, ⟨true, fun _ v => validatePhone v⟩),
   (birthDateKey, ⟨true, fun env v => validateBirthDate v env.now⟩),
   (cedulaKey, ⟨true, fun _ v => validateCedula v⟩),
   (passwordKey, ⟨true, fun _ v => validatePassword v⟩),
   (confirmPasswordKey, ⟨true, fun env v => validateConfirmPassword env v⟩),
   (websiteKey, ⟨false, fun _ v => validateWebsite v⟩),
   (salaryKey, ⟨true, fun _ v => validateSalary v⟩),
   (countryKey, ⟨true, fun _ v => validateSelect v⟩),
   (genderKey, ⟨true, fun env _ => validateRadioGroup env genderKey⟩),
   (interestsKey, ⟨true, fun env _ => validateCheckboxGroup env interestsKey 2⟩),
   (cvKey, ⟨true, fun env _ => validateFile env cvKey⟩),
   (commentsKey, ⟨false, fun _ v => validateTextarea v⟩),
   (termsKey, ⟨true, fun env _ => validateCheckbox env termsKey⟩)]

/-- `this.validators.keys()`, in registration order. -/
def registryKeys : List (List Char) := validators.map Prod.fst

-- ===== ValidationState and validateField / validateForm =====

/-- The `this.errors` map: `none` for an absent key.  `showError` and
`clearError` below perform the `errors.set` / `errors.delete` updates
(their DOM side effects — message nodes and CSS classes — are outside the
model). -/
def ErrorMap : Type := List Char → Option (List Char)

def showError (fieldName msg : List Char) (st : ErrorMap) : ErrorMap :=
  fun g => if g = fieldName then some msg else st g

def clearError (fieldName : List Char) (st : ErrorMap) : ErrorMap :=
  fun g => if g = fieldName then none else st g

/-- The empty error map (`clearAllErrors`, and the initial state). -/
def emptyErrors : ErrorMap := fun _ => none

/-- `validateField(fieldName)`: an unregistered field returns `true`
without touching anything; otherwise the field's validator runs on the
field's live value and the error map is updated (`showError` on a message,
`clearError` on success).  Returns the validity along with the new map. -/
def validateField (env : JsEnv) (st : ErrorMap) (fieldName : List Char) :
    Bool × ErrorMap :=
  match List.lookup fieldName validators with
  | none => (true, st)
  | some validator =>
    match validator.validate env (env.values fieldName) with
    | some msg => (false, showError fieldName msg st)
    | none => (true, clearError fieldName st)

/-- One step of the `validateForm` loop: run `validateField` and clear the
accumulated flag on failure (the field is validated unconditionally — the
loop body is an `if`, not a short-circuit). -/
def formStep (env : JsEnv) (acc : Bool × ErrorMap) (fieldName : List Char) :
    Bool × ErrorMap :=
  let r := validateField env acc.2 fieldName
  (acc.1 && r.1, r.2)

/-- `validateForm()`: fold the loop over every registered field, in
registration order, starting from `isValid = true`. -/
def validateForm (env : JsEnv) (st : ErrorMap) : Bool × ErrorMap :=
  registryKeys.foldl (formStep env) (true, st)

-- ===== The submit orchestrator (handleSubmit) =====

/-- The externally visible actions `handleSubmit` can trigger: the
(simulated) submission transport, moving focus to the first invalid field,
the success view swap, and the failure alert.  Button styling is outside
the model. -/
inductive JsAction where
  | transport : JsAction
  | focusFirstError : JsAction
  | showSuccess : JsAction
  | alertFailure : JsAction
deriving DecidableEq

/-- The orchestrator's mutable state: the error map and the
`this.isSubmitting` in-flight guard. -/
structure Orch where
  errors : ErrorMap
  isSubmitting : Bool

/-- The orchestrator state together with the number of transport calls
currently awaited (the instrumentation that counts submissions in
flight). -/
structure World where
  orch : Orch
  pending : Nat

/-- One `handleSubmit()` call, up to its suspension point.  If the guard
is set the call returns at once: no validation, no state change, no
action.  Otherwise the guard is set and the whole form is validated; on
failure focus moves to the first error and the `finally` block clears the
guard before the call returns (the invalid path never suspends); on
success the transport is invoked and the call suspends with the guard
still set. -/
def handleSubmit (env : JsEnv) (w : World) : World × List JsAction :=
  if w.orch.isSubmitting then (w, [])
  else if (validateForm env w.orch.errors).1 then
    (⟨⟨(validateForm env w.orch.errors).2, true⟩, w.pending + 1⟩,
     [JsAction.transport])
  else
    (⟨⟨(validateForm env w.orch.errors).2, false⟩, w.pending⟩,
     [JsAction.focusFirstError])

/-- Resumption after the awaited transport settles (successfully, or with
an error caught by the `catch` block): the corresponding view action runs
and the `finally` block clears the guard. -/
def transportDone (ok : Bool) (w : World) : World × List JsAction :=
  (⟨⟨w.orch.errors, false⟩, w.pending - 1⟩,
   [if ok then JsAction.showSuccess else JsAction.alertFailure])

/-- The reachable orchestrator states: from the initial state (empty
errors, guard clear, nothing in flight), any interleaving of submit events
and transport completions — a completion can only be delivered for a
transport that is actually in flight. -/
inductive Reach : World → Prop where
  | init : Reach ⟨⟨emptyErrors, false⟩, 0⟩
  | submit (env : JsEnv) {w : World} : Reach w → Reach (handleSubmit env w).1
  | done (ok : Bool) {w : World} : 0 < w.pending → Reach w →
      Reach (transportDone ok w).1

-- ===== Lemmas about validateField and validateForm =====

lemma mem_keys_of_lookup {α β : Type} [BEq α] [LawfulBEq α]
    {l : List (α × β)} {a : α} {b : β} (h : List.lookup a l = some b) :
    a ∈ l.map Prod.fst := by
  induction l with
  | nil => simp [List.lookup] at h
  | cons kv t ih =>
    rw [List.lookup] at h
    by_cases hk : a = kv.1
    · simp [hk]
    · have : (a == kv.1) = false := beq_eq_false_iff_ne.mpr hk
      rw [this] at h
      simp [ih h]

lemma lookup_eq_none_of_not_mem {α β : Type} [BEq α] [LawfulBEq α]
    {l : List (α × β)} {a : α} (h : a ∉ l.map Prod.fst) :
    List.lookup a l = none := by
  cases hl : List.lookup a l with
  | none => rfl
  | some b => exact absurd (mem_keys_of_lookup hl) h

/-- The boolean returned by `validateField` does not depend on the error
map: the validator reads only the environment. -/
lemma validateField_fst_indep (env : JsEnv) (st st' : ErrorMap)
    (f : List Char) : (validateField env st f).1 = (validateField env st' f).1 := by
  unfold validateField
  cases List.lookup f validators with
  | none => rfl
  | some v =>
    show (match v.validate env (env.values f) with
          | some msg => (false, showError f msg st)
          | none => (true, clearError f st)).1
        = (match v.validate env (env.values f) with
          | some msg => (false, showError f msg st')
          | none => (true, clearError f st')).1
    cases v.validate env (env.values f) <;> rfl

/-- `validateField` on field `f` leaves every other field's error entry
untouched. -/
lemma validateField_frame (env : JsEnv) (st : ErrorMap) (f g : List Char)
    (h : g ≠ f) : (validateField env st f).2 g = st g := by
  unfold validateField
  cases List.lookup f validators with
  | none => rfl
  | some v =>
    show (match v.validate env (env.values f) with
          | some msg => (false, showError f msg st)
          | none => (true, clearError f st)).2 g = st g
    cases v.validate env (env.values f) with
    | none => simp [clearError, h]
    | some m => simp [showError, h]

/-- The error entry `validateField` leaves at its own field: the
validator's result for a registered field, the old entry otherwise. -/
lemma validateField_at_self (env : JsEnv) (st : ErrorMap) (f : List Char) :
    (validateField env st f).2 f =
      match List.lookup f validators with
      | none => st f
      | some v => v.validate env (env.values f) := by
  unfold validateField
  cases List.lookup f validators with
  | none => rfl
  | some v =>
    show (match v.validate env (env.values f) with
          | some msg => (false, showError f msg st)
          | none => (true, clearError f st)).2 f
        = v.validate env (env.values f)
    cases v.validate env (env.values f) with
    | none => simp [clearError]
    | some m => simp [showError]

/-- The accumulated boolean of the `validateForm` fold is the conjunction
of the per-field booleans over the initial state. -/
lemma formFold_fst (env : JsEnv) :
    ∀ (ks : List (List Char)) (b : Bool) (st : ErrorMap),
      (ks.foldl (formStep env) (b, st)).1 =
        (b && ks.all (fun f => (validateField env st f).1)) := by
  intro ks
  induction ks with
  | nil => intro b st; simp
  | cons k t ih =>
    intro b st
    rw [List.foldl_cons, List.all_cons]
    show (t.foldl (formStep env)
      (b && (validateField env st k).1, (validateField env st k).2)).1 = _
    rw [ih]
    have hcongr : (fun f => (validateField env (validateField env st k).2 f).1)
        = (fun f => (validateField env st f).1) :=
      funext fun f => validateField_fst_indep env _ st f
    rw [hcongr, Bool.and_assoc]

/-- The error map produced by the `validateForm` fold, pointwise: a field
visited by the fold holds the entry `validateField` would give it from the
initial state; every other field is untouched. -/
lemma formFold_snd (env : JsEnv) :
    ∀ (ks : List (List Char)) (b : Bool) (st : ErrorMap) (g : List Char),
      (ks.foldl (formStep env) (b, st)).2 g =
        if g ∈ ks then (validateField env st g).2 g else st g := by
  intro ks
  induction ks with
  | nil => intro b st g; simp
  | cons k t ih =>
    intro b st g
    rw [List.foldl_cons]
    show (t.foldl (formStep env)
      (b && (validateField env st k).1, (validateField env st k).2)).2 g = _
    rw [ih]
    by_cases hg : g ∈ t
    · rw [if_pos hg, if_pos (List.mem_cons_of_mem _ hg)]
      rw [validateField_at_self, validateField_at_self]
      cases hl : List.lookup g validators with
      | some v => rfl
      | none =>
        by_cases hgk : g = k
        · subst hgk
          rw [validateField_at_self, hl]
        · exact validateField_frame env st k g hgk
    · by_cases hgk : g = k
      · subst hgk
        rw [if_neg hg, if_pos (List.mem_cons_self g t)]
      · rw [if_neg hg, if_neg (by
          intro hmem
          rcases List.mem_cons.mp hmem with h | h
          · exact hgk h
          · exact hg h)]
        exact validateField_frame env st k g hgk

-- ===== Claim theorems: the engine (C2, C8, C9, C10, C3) =====

/-- C2: `validateForm()` returns exactly the conjunction of
`validateField` over every registered field, visited in registration order
without short-circuiting: afterwards every registered field's error entry
is what a stand-alone `validateField` call on it would have produced, and
no other entry is touched. -/
theorem claim2_validateForm (env : JsEnv) (st : ErrorMap) :
    (validateForm env st).1 =
      registryKeys.all (fun f => (validateField env st f).1) ∧
    (∀ f, f ∈ registryKeys →
      (validateForm env st).2 f = (validateField env st f).2 f) ∧
    (∀ g, g ∉ registryKeys → (validateForm env st).2 g = st g) := by
  refine ⟨?_, ?_, ?_⟩
  · unfold validateForm
    rw [formFold_fst, Bool.true_and]
  · intro f hf
    unfold validateForm
    rw [formFold_snd, if_pos hf]
  · intro g hg
    unfold validateForm
    rw [formFold_snd, if_neg hg]

/-- C9: `validateField` is idempotent — with an unchanged environment, a
second call returns the same boolean and leaves the error map exactly as
the first call did. -/
theorem claim9_idempotent (env : JsEnv) (st : ErrorMap) (f : List Char)
    (_hf : f ∈ registryKeys) :
    validateField env (validateField env st f).2 f = validateField env st f := by
  refine Prod.ext ?_ (funext fun g => ?_)
  · exact validateField_fst_indep env _ st f
  · by_cases hgf : g = f
    · subst hgf
      rw [validateField_at_self, validateField_at_self]
      cases hl : List.lookup g validators with
      | some v => rfl
      | none => rfl
    · rw [validateField_frame env _ f g hgf, validateField_frame env st f g hgf]

/-- C10: an unregistered field id makes `validateField` return `true` with
the error map untouched, and consequently every key ever present in the
error map is a registered field id (the property is preserved by every
`validateField` call from any state satisfying it). -/
theorem claim10_unregistered (env : JsEnv) (st : ErrorMap) (f : List Char) :
    (f ∉ registryKeys → validateField env st f = (true, st)) ∧
    ((∀ g, st g ≠ none → g ∈ registryKeys) →
      ∀ g, (validateField env st f).2 g ≠ none → g ∈ registryKeys) := by
  constructor
  · intro hf
    unfold validateField
    rw [lookup_eq_none_of_not_mem hf]
  · intro hinv g hg
    cases hl : List.lookup f validators with
    | none =>
      have hid : validateField env st f = (true, st) := by
        unfold validateField; rw [hl]
      rw [hid] at hg
      exact hinv g hg
    | some v =>
      by_cases hgf : g = f
      · subst hgf
        exact mem_keys_of_lookup hl
      · rw [validateField_frame env st f g hgf] at hg
        exact hinv g hg

/-- C8: validating the confirm-password field compares its value with the
live value of the primary password field at validation time, and no
validation of any other field — the password field included — modifies the
confirm field's stored error entry. -/
theorem claim8_confirm_live (env : JsEnv) (st : ErrorMap) (g : List Char) :
    (g ≠ confirmPasswordKey →
      (validateField env st g).2 confirmPasswordKey = st confirmPasswordKey) ∧
    ((validateField env st confirmPasswordKey).2 confirmPasswordKey =
      validateConfirmPassword env (env.values confirmPasswordKey)) ∧
    (validateConfirmPassword env (env.values confirmPasswordKey) = none ↔
      env.values confirmPasswordKey ≠ [] ∧
      env.values confirmPasswordKey = env.values passwordKey) := by
  refine ⟨?_, ?_, ?_⟩
  · intro hg
    exact validateField_frame env st g confirmPasswordKey (Ne.symm hg)
  · rw [validateField_at_self]
    rfl
  · unfold validateConfirmPassword
    by_cases h1 : env.values confirmPasswordKey = []
    · simp [h1]
    · by_cases h2 : env.values confirmPasswordKey = env.values passwordKey
      · simp [h1, h2]
      · simp [h1, h2]

/-- C3: a `submit()` arriving while a prior submission is awaiting the
transport is rejected by the in-flight guard — no validation, no state
change, no action — and along every reachable trace at most one
submission is in flight, the in-flight count being exactly the state of
the guard. -/
theorem claim3_reentrancy :
    (∀ (env : JsEnv) (w : World), w.orch.isSubmitting = true →
      handleSubmit env w = (w, [])) ∧
    (∀ w : World, Reach w →
      w.pending ≤ 1 ∧ (w.pending = 1 ↔ w.orch.isSubmitting = true)) := by
  constructor
  · intro env w h
    unfold handleSubmit
    rw [if_pos h]
  · intro w hw
    induction hw with
    | init => simp
    | @submit env w hw ih =>
      unfold handleSubmit
      by_cases hs : w.orch.isSubmitting = true
      · rw [if_pos hs]
        exact ih
      · have hp0 : w.pending = 0 := by
          rcases ih with ⟨hle, hiff⟩
          have h1 : ¬w.pending = 1 := fun h => hs (hiff.mp h)
          omega
        rw [if_neg hs]
        by_cases hv : (validateForm env w.orch.errors).1 = true
        · rw [if_pos hv]
          simp [hp0]
        · rw [if_neg hv]
          simp [hp0, hs]
    | @done ok w hp hw ih =>
      unfold transportDone
      rcases ih with ⟨hle, hiff⟩
      have hp1 : w.pending = 1 := by omega
      simp [hp1]

-- ===== Claim theorems: birth date (C5) and error handling (C4) =====

/-- The day count strictly increases when the year increases (same month
and day fields): the Gregorian correction terms never cancel a whole
year's worth of days. -/
lemma daysFromCivil_year_lt (y : Int) (m d : Nat) (k : Int) (hk : 0 < k) :
    daysFromCivil (y - k) m d < daysFromCivil y m d := by
  unfold daysFromCivil
  by_cases hm : m ≤ 2
  · simp only [if_pos hm]
    omega
  · simp only [if_neg hm]
    omega

/-- C5: for every parseable birth-date input, the three range checks run
in the order future, then too-old, then too-young, each returning its own
message; a date whose day count is exactly the 18-years-ago boundary
passes, one day past that boundary fails as too young, and a date whose
day count is before the 100-years-ago boundary fails as invalid. -/
theorem claim5_birthdate (s : List Char) (b : CalDate) (now : JsNow)
    (hp : parseJsDate s = some b) :
    (nowTs now < tsOfDate b → validateBirthDate s now = some birthFutureMsg) ∧
    (¬nowTs now < tsOfDate b → tsOfDate b < minTs now →
      validateBirthDate s now = some birthOldMsg) ∧
    (¬nowTs now < tsOfDate b → ¬tsOfDate b < minTs now →
      maxTs now < tsOfDate b → validateBirthDate s now = some birthYoungMsg) ∧
    (¬nowTs now < tsOfDate b → ¬tsOfDate b < minTs now →
      ¬maxTs now < tsOfDate b → validateBirthDate s now = none) ∧
    (daysOfDate b = daysFromCivil (now.year - 18) now.month now.day →
      validateBirthDate s now = none) ∧
    (daysOfDate b = daysFromCivil (now.year - 18) now.month now.day + 1 →
      validateBirthDate s now = some birthYoungMsg) ∧
    (daysOfDate b < daysFromCivil (now.year - 100) now.month now.day →
      validateBirthDate s now = some birthOldMsg) := by
  have hs : s ≠ [] := by
    intro h
    rw [h] at hp
    simp [parseJsDate] at hp
  have hshape : validateBirthDate s now =
      (if nowTs now < tsOfDate b then some birthFutureMsg
       else if tsOfDate b < minTs now then some birthOldMsg
       else if maxTs now < tsOfDate b then some birthYoungMsg
       else none) := by
    unfold validateBirthDate
    rw [if_neg hs, hp]
  have hAT : daysFromCivil (now.year - 18) now.month now.day <
      daysFromCivil now.year now.month now.day :=
    daysFromCivil_year_lt now.year now.month now.day 18 (by norm_num)
  have hBA : daysFromCivil (now.year - 100) now.month now.day <
      daysFromCivil (now.year - 18) now.month now.day := by
    have h := daysFromCivil_year_lt (now.year - 18) now.month now.day 82
      (by norm_num)
    have e : now.year - 18 - 82 = now.year - 100 := by ring
    rw [e] at h
    exact h
  have htod : now.tod < 86400000 := now.tod_lt
  refine ⟨?_, ?_, ?_, ?_, ?_, ?_, ?_⟩
  · intro h1
    rw [hshape, if_pos h1]
  · intro h1 h2
    rw [hshape, if_neg h1, if_pos h2]
  · intro h1 h2 h3
    rw [hshape, if_neg h1, if_neg h2, if_pos h3]
  · intro h1 h2 h3
    rw [hshape, if_neg h1, if_neg h2, if_neg h3]
  · intro h18
    have h1 : ¬nowTs now < tsOfDate b := by
      unfold nowTs tsOfDate
      rw [h18]
      omega
    have h2 : ¬tsOfDate b < minTs now := by
      unfold minTs tsOfDate
      rw [h18]
      omega
    have h3 : ¬maxTs now < tsOfDate b := by
      unfold maxTs tsOfDate
      rw [h18]
      omega
    rw [hshape, if_neg h1, if_neg h2, if_neg h3]
  · intro h18
    have h1 : ¬nowTs now < tsOfDate b := by
      unfold nowTs tsOfDate
      rw [h18]
      omega
    have h2 : ¬tsOfDate b < minTs now := by
      unfold minTs tsOfDate
      rw [h18]
      omega
    have h3 : maxTs now < tsOfDate b := by
      unfold maxTs tsOfDate
      rw [h18]
      omega
    rw [hshape, if_neg h1, if_neg h2, if_pos h3]
  · intro hold
    have h1 : ¬nowTs now < tsOfDate b := by
      unfold nowTs tsOfDate daysOfDate
      unfold daysOfDate at hold
      omega
    have h2 : tsOfDate b < minTs now := by
      unfold minTs tsOfDate daysOfDate
      unfold daysOfDate at hold
      omega
    rw [hshape, if_neg h1, if_pos h2]

lemma bool_ne_true {b : Bool} (h : b = false) : ¬b = true := by
  rw [h]
  exact Bool.false_ne_true

/-- C4 fails on the code as stated: `"abc"` is a non-empty input that does
not parse as a date, yet `validateBirthDate` accepts it — `new Date("abc")`
is an Invalid Date, all three range comparisons on its `NaN` timestamp are
false, and the function returns `null` instead of an error message. -/
theorem claim4_counterexample :
    ("abc".toList ≠ ([] : List Char)) ∧ parseJsDate ("abc".toList) = none ∧
    validateBirthDate ("abc".toList) exNow = none := by decide

/-- C4 (amended): every validator is a total function returning acceptance
or an error message — nothing throws; for every non-empty input that does
not parse as a number the salary validator returns the non-numeric
message; but for every non-empty input that does not parse as a date the
birth-date validator accepts the input rather than erroring. -/
theorem claim4_amended :
    (∀ (s : List Char) (now : JsNow), s ≠ [] → parseJsDate s = none →
      validateBirthDate s now = none) ∧
    (∀ s : List Char, s ≠ [] → (jsParseFloat s).isNaN = true →
      validateSalary s = some salaryNumMsg) := by
  constructor
  · intro s now hs hp
    unfold validateBirthDate
    rw [if_neg hs, hp]
  · intro s hs hn
    unfold validateSalary
    rw [if_neg hs]
    show (if (jsParseFloat s).isNaN = true then some salaryNumMsg
          else if jsLtNum (jsParseFloat s) 0 = true then some salaryNegMsg
          else if jsGtNum (jsParseFloat s) 1000000 = true then some salaryHighMsg
          else none) = some salaryNumMsg
    rw [if_pos hn]

/-- C6: the salary validator distinguishes, in order: empty input
(required), input `parseFloat` cannot read (non-numeric, a message
distinct from both range messages), a negative value, a value above
1,000,000, and acceptance; with the claim's four concrete cases. -/
theorem claim6_salary (s : List Char) :
    (s = [] → validateSalary s = some salaryReqMsg) ∧
    (s ≠ [] → (jsParseFloat s).isNaN = true →
      validateSalary s = some salaryNumMsg) ∧
    (s ≠ [] → (jsParseFloat s).isNaN = false →
      jsLtNum (jsParseFloat s) 0 = true →
      validateSalary s = some salaryNegMsg) ∧
    (s ≠ [] → (jsParseFloat s).isNaN = false →
      jsLtNum (jsParseFloat s) 0 = false →
      jsGtNum (jsParseFloat s) 1000000 = true →
      validateSalary s = some salaryHighMsg) ∧
    (s ≠ [] → (jsParseFloat s).isNaN = false →
      jsLtNum (jsParseFloat s) 0 = false →
      jsGtNum (jsParseFloat s) 1000000 = false →
      validateSalary s = none) ∧
    (salaryNumMsg ≠ salaryNegMsg ∧ salaryNumMsg ≠ salaryHighMsg ∧
      salaryNegMsg ≠ salaryHighMsg) ∧
    (validateSalary ("-1".toList) = some salaryNegMsg ∧
      validateSalary ("abc".toList) = some salaryNumMsg ∧
      validateSalary ("1000001".toList) = some salaryHighMsg ∧
      validateSalary ("50000".toList) = none) := by
  have hshape : ∀ t : List Char, t ≠ [] → validateSalary t =
      (if (jsParseFloat t).isNaN = true then some salaryNumMsg
       else if jsLtNum (jsParseFloat t) 0 = true then some salaryNegMsg
       else if jsGtNum (jsParseFloat t) 1000000 = true then some salaryHighMsg
       else none) := by
    intro t ht
    unfold validateSalary
    rw [if_neg ht]
  refine ⟨?_, ?_, ?_, ?_, ?_, by decide, by decide⟩
  · intro hs
    unfold validateSalary
    rw [if_pos hs]
  · intro hs h1
    rw [hshape s hs, if_pos h1]
  · intro hs h1 h2
    rw [hshape s hs, if_neg (bool_ne_true h1), if_pos h2]
  · intro hs h1 h2 h3
    rw [hshape s hs, if_neg (bool_ne_true h1), if_neg (bool_ne_true h2),
      if_pos h3]
  · intro hs h1 h2 h3
    rw [hshape s hs, if_neg (bool_ne_true h1), if_neg (bool_ne_true h2),
      if_neg (bool_ne_true h3)]

-- ===== Claim theorems: full name (C7) =====

def tabName : List Char := ['a', '\t', 'b']

/-- C7 fails on the code as stated: `"a<TAB>b"` passes all four checks as
the claim words them — non-empty after trimming, trimmed length at least
2, only letters/accented letters/spaces (the pattern's class contains all
of `\s`, the tab included), and two whitespace-separated tokens — yet the
validator rejects it with the fourth check's message, because the source
splits the trimmed value on single space characters only, and a tab does
not separate tokens for it. -/
theorem claim7_counterexample :
    (jsTrim tabName ≠ [] ∧ 2 ≤ (jsTrim tabName).length ∧
      (∀ c ∈ tabName, nameChar c = true) ∧ 2 ≤ wsTokens (jsTrim tabName)) ∧
    validateFullName tabName = some fullNameTokensMsg := by decide

/-- C7 (amended): the full-name validator applies four checks in order and
returns the message of the first that fails — non-empty after trimming;
trimmed length at least 2; the whole string drawn from letters, the
accented letters and JavaScript whitespace; and the trimmed string
containing at least one space character U+0020 (splitting on single spaces
yields at least two pieces).  It accepts exactly the strings passing all
four. -/
theorem claim7_fullname_amended (s : List Char) :
    ((jsTrim s).isEmpty = true → validateFullName s = some fullNameReqMsg) ∧
    ((jsTrim s).isEmpty = false → (jsTrim s).length < 2 →
      validateFullName s = some fullNameMinMsg) ∧
    ((jsTrim s).isEmpty = false → ¬(jsTrim s).length < 2 →
      ¬(s ≠ [] ∧ s.all nameChar = true) →
      validateFullName s = some fullNameLettersMsg) ∧
    ((jsTrim s).isEmpty = false → ¬(jsTrim s).length < 2 →
      (s ≠ [] ∧ s.all nameChar = true) → (jsTrim s).count ' ' = 0 →
      validateFullName s = some fullNameTokensMsg) ∧
    (validateFullName s = none ↔
      jsTrim s ≠ [] ∧ 2 ≤ (jsTrim s).length ∧ (∀ c ∈ s, nameChar c = true) ∧
      1 ≤ (jsTrim s).count ' ') := by
  refine ⟨?_, ?_, ?_, ?_, ?_⟩
  · intro h1
    unfold validateFullName
    rw [if_pos h1]
  · intro h1 h2
    unfold validateFullName
    rw [if_neg (bool_ne_true h1), if_pos h2]
  · intro h1 h2 h3
    unfold validateFullName
    rw [if_neg (bool_ne_true h1), if_neg h2, if_pos h3]
  · intro h1 h2 h3 h4
    unfold validateFullName
    rw [if_neg (bool_ne_true h1), if_neg h2, if_neg (not_not_intro h3),
      if_pos (by unfold spaceSplitLength; omega)]
  · constructor
    · intro h
      unfold validateFullName at h
      split_ifs at h with h1 h2 h3 h4
      refine ⟨?_, by omega, ?_, ?_⟩
      · intro he
        rw [he] at h1
        exact h1 rfl
      · exact List.all_eq_true.mp h3.2
      · unfold spaceSplitLength at h4
        omega
    · rintro ⟨ht, hlen, hall, hcount⟩
      have hse : s ≠ [] := by
        intro he
        apply ht
        rw [he]
        rfl
      have hie : (jsTrim s).isEmpty = false := by
        cases hjt : jsTrim s with
        | nil => exact absurd hjt ht
        | cons c t => rfl
      unfold validateFullName
      rw [if_neg (bool_ne_true hie), if_neg (by omega),
        if_neg (not_not_intro ⟨hse, List.all_eq_true.mpr hall⟩),
        if_neg (by unfold spaceSplitLength; omega)]

-- ===== Concrete instances for the theorems with hypotheses =====

/-- A concrete document state: every field empty, nothing checked, no file
selected. -/
def env0 : JsEnv where
  values := fun _ => []
  radioChecked := fun _ => false
  checkedCount := fun _ => 0
  fileOf := fun _ => none
  boxChecked := fun _ => false
  now := exNow

/-- A concrete orchestrator state with a submission in flight. -/
def worldInFlight : World := ⟨⟨emptyErrors, true⟩, 1⟩

def bogusKey : List Char := "nope".toList

theorem claim1_cedula_witness : validateCedula ("0012345678".toList) ≠ none :=
  (claim1_cedula ("0012345678".toList) (by decide)).2 (Or.inl (by decide))

theorem claim2_validateForm_witness :
    (validateForm env0 emptyErrors).2 emailKey =
      (validateField env0 emptyErrors emailKey).2 emailKey :=
  (claim2_validateForm env0 emptyErrors).2.1 emailKey (by decide)

theorem claim3_reentrancy_witness :
    handleSubmit env0 worldInFlight = (worldInFlight, []) ∧
    ((⟨⟨emptyErrors, false⟩, 0⟩ : World).pending ≤ 1 ∧
      ((⟨⟨emptyErrors, false⟩, 0⟩ : World).pending = 1 ↔
        (⟨⟨emptyErrors, false⟩, 0⟩ : World).orch.isSubmitting = true)) :=
  ⟨claim3_reentrancy.1 env0 worldInFlight rfl,
   claim3_reentrancy.2 _ Reach.init⟩

theorem claim4_amended_witness :
    validateBirthDate ("xyz".toList) exNow = none ∧
    validateSalary ("xx".toList) = some salaryNumMsg :=
  ⟨claim4_amended.1 ("xyz".toList) exNow (by decide) (by decide),
   claim4_amended.2 ("xx".toList) (by decide) (by decide)⟩

theorem claim5_birthdate_witness :
    validateBirthDate ("2002-06-15".toList) exNow = none :=
  (claim5_birthdate ("2002-06-15".toList) ⟨2002, 6, 15⟩ exNow
    (by decide)).2.2.2.2.1 (by decide)

theorem claim6_salary_witness : validateSalary ("50000".toList) = none :=
  (claim6_salary ("50000".toList)).2.2.2.2.1 (by decide) (by decide)
    (by decide) (by decide)

theorem claim7_fullname_witness :
    validateFullName ("Juan Perez".toList) = none :=
  (claim7_fullname_amended ("Juan Perez".toList)).2.2.2.2.mpr (by decide)

theorem claim8_confirm_witness :
    (validateField env0 emptyErrors emailKey).2 confirmPasswordKey =
      emptyErrors confirmPasswordKey :=
  (claim8_confirm_live env0 emptyErrors emailKey).1 (by decide)

theorem claim9_idempotent_witness :
    validateField env0 (validateField env0 emptyErrors fullNameKey).2
        fullNameKey =
      validateField env0 emptyErrors fullNameKey :=
  claim9_idempotent env0 emptyErrors fullNameKey (by decide)

theorem claim10_unregistered_witness :
    validateField env0 emptyErrors bogusKey = (true, emptyErrors) :=
  (claim10_unregistered env0 emptyErrors bogusKey).1 (by decide)
